import Mathlib

/-! # go-rucaptha: the submit/poll protocol of `solver.go`

A shallow embedding of `solver.go` (package `rucaptcha`) and the properties of
its submission handlers, its polling loop `WaitForReady` and the three solve
operations.

Modelling conventions.

* A Go `string` is a list of characters (`Str`).  The only string operations of
  `solver.go` are matching against literal ASCII regular expressions,
  `strings.Split` on `"|"`, concatenation and `fmt.Errorf` with `%s`; on a
  list of characters they behave as they do on the bytes of the string.
* `regexp.MustCompile(p).MatchString(s)` for a pattern `p` without
  metacharacters is the test "`p` occurs in `s`" (`MatchString`).
* The functions `sendRequest`, `sendRecaptchaRequest`, `sendRecaptchaV3Request`
  and the HTTP client are not part of `solver.go`; they are the fields of
  `Http`, a parameter of every operation.
* `results[1]` panics in Go when `results` has fewer than two elements; the
  embedding makes this outcome explicit (`Exec.panicked`).
* `WaitForReady` loops without bound; the embedding runs it for a given number
  of iterations (`fuel`) and reports `Exec.running` when the loop has not been
  left by then.
* `time.Sleep` and the deferred `Close` of the response body do not influence
  any returned value and are left out.
-/

namespace Rucaptcha

/-! ## Strings -/

/-- A Go string. -/
abbrev Str := List Char

/-- The pattern of `regexp.MustCompile("OK")`. -/
def OK : Str := ['O', 'K']

/-- The pattern of `regexp.MustCompile("ERROR")`. -/
def ERROR : Str := ['E', 'R', 'R', 'O', 'R']

/-- The pattern of `regexp.MustCompile("CAPCHA_NOT_READY")`. -/
def CAPCHA_NOT_READY : Str :=
  ['C', 'A', 'P', 'C', 'H', 'A', '_', 'N', 'O', 'T', '_', 'R', 'E', 'A', 'D', 'Y']

/-- The first three characters of a success response. -/
def OKpipe : Str := ['O', 'K', '|']

/-- The call `re.MatchString(s)` of package `regexp` for a literal pattern
`re`: does `re` occur somewhere in `s`. -/
def MatchString (re : Str) : Str → Bool
  | [] => re.isPrefixOf []
  | c :: cs => re.isPrefixOf (c :: cs) || MatchString re cs

/-- The call `strings.Split(s, sep)` for a separator of one character (the
only use in `solver.go` is `strings.Split(string(body), "|")`): the fields of
`s` between the occurrences of `sep`; one more field than there are
separators, so never an empty slice. -/
def Split : Str → Char → List Str
  | [], _ => [[]]
  | c :: cs, sep =>
    if c = sep then [] :: Split cs sep
    else
      match Split cs sep with
      | [] => [[c]]
      | f :: fs => (c :: f) :: fs

/-! ## Data model -/

/-- A Go `error` value, identified with the text its `Error()` method yields. -/
structure GoError where
  msg : Str
deriving DecidableEq, Repr

/-- The call `fmt.Errorf("Captcha service error: %s\n", body)`. -/
def captchaServiceError (body : Str) : GoError :=
  ⟨"Captcha service error: ".toList ++ body ++ ['\n']⟩

/-- The call `fmt.Errorf("Unknown response: %s\n", body)`. -/
def unknownResponse (body : Str) : GoError :=
  ⟨"Unknown response: ".toList ++ body ++ ['\n']⟩

/-- The call `fmt.Errorf("Error response: %s", body)`. -/
def errorResponse (body : Str) : GoError :=
  ⟨"Error response: ".toList ++ body⟩

/-- The struct `CaptchaSolver` (`time.Duration` is an `int64` count of
nanoseconds). -/
structure CaptchaSolver where
  IsPhrase : Bool
  IsRegsence : Bool
  IsNumeric : Int
  MinLength : Int
  MaxLength : Int
  Language : Int
  ImagePath : Str
  APIKey : Str
  RequestURL : Str
  ResultURL : Str
  CheckResultTimeout : Int
deriving DecidableEq, Repr

/-- The function `New`. -/
def New (key : Str) : CaptchaSolver :=
  { IsPhrase := false, IsRegsence := false, IsNumeric := 0, MinLength := 0,
    MaxLength := 0, Language := 0, ImagePath := [], APIKey := key,
    RequestURL := "http://rucaptcha.com/in.php".toList,
    ResultURL := "http://rucaptcha.com/res.php".toList,
    CheckResultTimeout := 0 }

/-- The request of one poll: the address `solver.ResultURL + "?"` and the
values `key`, `action`, `id` added to `data` in `WaitForReady`. -/
structure PollRequest where
  url : Str
  key : Str
  action : Str
  id : Str
deriving DecidableEq, Repr

/-- The network and the file system, as seen by `solver.go`.  Every field is
the body read from the response (the request followed by `ioutil.ReadAll`), or
the error of whichever of the two failed first.  `Get i r` is the GET issued by
iteration `i` (counted from 0) of the loop of `WaitForReady`. -/
structure Http where
  sendRequest : CaptchaSolver → List UInt8 → Except GoError Str
  sendRecaptchaRequest : CaptchaSolver → Str → Str → Except GoError Str
  sendRecaptchaV3Request : CaptchaSolver → Str → Str → Str → Except GoError Str
  Get : Nat → PollRequest → Except GoError Str
  ReadFile : Str → Except GoError (List UInt8)
  GetImage : Str → Except GoError (List UInt8)

/-- How far a call has come: it returned a value, it panicked (index out of
range at `results[1]`), or it is still inside the loop of `WaitForReady`. -/
inductive Exec (α : Type) where
  | returned (a : α)
  | panicked
  | running
deriving DecidableEq, Repr

/-- A call of a method of `*CaptchaSolver` seen from outside: what it did, how
many GET requests it sent to the result address, and the solver record
afterwards. -/
structure Call (α : Type) where
  exec : Exec α
  polls : Nat
  solver : CaptchaSolver
deriving DecidableEq, Repr

/-! ## Submission -/

/-- Lines 125-143, 158-176 and 191-209: what each of `getReCaptchaID`,
`getReCaptchaV3ID` and `getCaptchaID` does with the outcome of its request. -/
def submissionResult : Except GoError Str → Exec (Option Str × Option GoError)
  | .error err => .returned (none, some err)
  | .ok body =>
    if MatchString ERROR body then
      .returned (none, some (captchaServiceError body))
    else if !MatchString OK body then
      .returned (none, some (unknownResponse body))
    else
      match Split body '|' with
      | _ :: id :: _ => .returned (some id, none)
      | _ => .panicked

/-- The method `getReCaptchaID`. -/
def getReCaptchaID (h : Http) (solver : CaptchaSolver) (key pageURL : Str) :
    Exec (Option Str × Option GoError) :=
  submissionResult (h.sendRecaptchaRequest solver key pageURL)

/-- The method `getReCaptchaV3ID`. -/
def getReCaptchaV3ID (h : Http) (solver : CaptchaSolver) (key pageURL action : Str) :
    Exec (Option Str × Option GoError) :=
  submissionResult (h.sendRecaptchaV3Request solver key pageURL action)

/-- The method `getCaptchaID`. -/
def getCaptchaID (h : Http) (solver : CaptchaSolver) (file : List UInt8) :
    Exec (Option Str × Option GoError) :=
  submissionResult (h.sendRequest solver file)

/-! ## Polling -/

/-- How one pass through the body of the `for` loop of `WaitForReady` ends. -/
inductive Iteration where
  | next
  | done (answer : Str)
  | fail (err : GoError)
  | panic
deriving DecidableEq, Repr

/-- Lines 234-268: the body of the loop, given the outcome of the GET. -/
def iteration : Except GoError Str → Iteration
  | .error err => .fail err
  | .ok body =>
    if MatchString OK body then
      match Split body '|' with
      | _ :: answer :: _ => .done answer
      | _ => .panic
    else if MatchString CAPCHA_NOT_READY body then
      .next
    else if MatchString ERROR body then
      .fail (errorResponse body)
    else
      .next

/-- The request that `WaitForReady` repeats. -/
def pollRequest (solver : CaptchaSolver) (captchaID : Str) : PollRequest :=
  { url := solver.ResultURL ++ ['?'], key := solver.APIKey,
    action := ['g', 'e', 't'], id := captchaID }

/-- The `for` loop of `WaitForReady`, entered with `i` GETs already sent and
allowed `fuel` further iterations.  The value is the result of `WaitForReady`
and the number of GETs sent. -/
def pollLoop (h : Http) (r : PollRequest) :
    Nat → Nat → Exec (Option Str × Option GoError) × Nat
  | 0, i => (.running, i)
  | fuel + 1, i =>
    match iteration (h.Get i r) with
    | .next => pollLoop h r fuel (i + 1)
    | .done answer => (.returned (some answer, none), i + 1)
    | .fail err => (.returned (none, some err), i + 1)
    | .panic => (.panicked, i + 1)

/-- The method `WaitForReady`, run for at most `fuel` iterations. -/
def WaitForReady (h : Http) (fuel : Nat) (solver : CaptchaSolver) (captchaID : Str) :
    Call (Option Str × Option GoError) :=
  let out := pollLoop h (pollRequest solver captchaID) fuel 0
  { exec := out.1, polls := out.2, solver := solver }

/-! ## The solve operations -/

/-- The triple `(*string, *string, error)` the solve operations return. -/
abbrev Solved := Option Str × Option Str × Option GoError

/-- Lines 57-67, 74-84 and 95-105: the common part of the three solve
operations, from the outcome of the submission on. -/
def solveWith (h : Http) (fuel : Nat) (solver : CaptchaSolver) :
    Exec (Option Str × Option GoError) → Call Solved
  | .panicked => { exec := .panicked, polls := 0, solver := solver }
  | .running => { exec := .running, polls := 0, solver := solver }
  | .returned (_, some err) => { exec := .returned (none, none, some err), polls := 0, solver := solver }
  | .returned (none, none) => { exec := .panicked, polls := 0, solver := solver }
  | .returned (some captchaID, none) =>
    let w := WaitForReady h fuel solver captchaID
    match w.exec with
    | .panicked => { exec := .panicked, polls := w.polls, solver := w.solver }
    | .running => { exec := .running, polls := w.polls, solver := w.solver }
    | .returned (_, some err) =>
      { exec := .returned (none, some captchaID, some err), polls := w.polls, solver := w.solver }
    | .returned (answer, none) =>
      { exec := .returned (answer, some captchaID, none), polls := w.polls, solver := w.solver }

/-- The method `SolveRecaptchaV3`. -/
def SolveRecaptchaV3 (h : Http) (fuel : Nat) (solver : CaptchaSolver)
    (key pageURL action : Str) : Call Solved :=
  solveWith h fuel solver (getReCaptchaV3ID h solver key pageURL action)

/-- The method `SolveRecaptcha`. -/
def SolveRecaptcha (h : Http) (fuel : Nat) (solver : CaptchaSolver)
    (key pageURL : Str) : Call Solved :=
  solveWith h fuel solver (getReCaptchaID h solver key pageURL)

/-- The method `loadCaptchaImage`: the pattern `(http://|https://)` decides
between the file system and HTTP. -/
def loadCaptchaImage (h : Http) (solver : CaptchaSolver) : Except GoError (List UInt8) :=
  let isHTTP := MatchString "http://".toList solver.ImagePath
    || MatchString "https://".toList solver.ImagePath
  if !isHTTP then h.ReadFile solver.ImagePath else h.GetImage solver.ImagePath

/-- The method `Solve`. -/
def Solve (h : Http) (fuel : Nat) (solver : CaptchaSolver) (path : Str) : Call Solved :=
  let solver := { solver with ImagePath := path }
  match loadCaptchaImage h solver with
  | .error err => { exec := .returned (none, none, some err), polls := 0, solver := solver }
  | .ok file => solveWith h fuel solver (getCaptchaID h solver file)

/-! ## Vocabulary of the specification -/

/-- The text between the first and the second `|` of `body`: everything after
the first `|` up to the next `|`, or up to the end when there is none. -/
def secondField (body : Str) : Str :=
  ((body.dropWhile (fun c => c != '|')).drop 1).takeWhile (fun c => c != '|')

/-- A server with a fixed script: every submission gets the answer `submit`,
poll `i` gets `polls i`, and every image loads as the empty file. -/
def scripted (submit : Except GoError Str) (polls : Nat → Except GoError Str) : Http :=
  { sendRequest := fun _ _ => submit
    sendRecaptchaRequest := fun _ _ _ => submit
    sendRecaptchaV3Request := fun _ _ _ _ => submit
    Get := fun i _ => polls i
    ReadFile := fun _ => .ok []
    GetImage := fun _ => .ok [] }

/-! ## Lemmas on strings -/

theorem matchString_iff_occurs (re s : Str) : MatchString re s = true ↔ re <:+: s := by
  induction s with
  | nil => simp [MatchString, List.isPrefixOf_iff_prefix]
  | cons c cs ih =>
    simp only [MatchString, Bool.or_eq_true, List.isPrefixOf_iff_prefix, List.infix_cons_iff, ih]

theorem split_ne_nil (s : Str) (sep : Char) : Split s sep ≠ [] := by
  cases s with
  | nil => simp [Split]
  | cons c cs =>
    by_cases hc : c = sep
    · simp [Split, hc]
    · simp only [Split, hc, if_false]
      split <;> simp

theorem split_head (s : Str) (sep : Char) :
    ∃ fs, Split s sep = s.takeWhile (fun c => c != sep) :: fs := by
  induction s with
  | nil => exact ⟨[], rfl⟩
  | cons c cs ih =>
    obtain ⟨fs, hfs⟩ := ih
    by_cases hc : c = sep
    · exact ⟨Split cs sep, by simp [Split, hc]⟩
    · exact ⟨fs, by simp [Split, hc, hfs]⟩

theorem split_OKpipe (rest : Str) :
    ∃ fs, Split (OKpipe ++ rest) '|' = OK :: rest.takeWhile (fun c => c != '|') :: fs := by
  obtain ⟨fs, hfs⟩ := split_head rest '|'
  exact ⟨fs, by simp [OKpipe, OK, Split, hfs]⟩

theorem secondField_OKpipe (rest : Str) :
    secondField (OKpipe ++ rest) = rest.takeWhile (fun c => c != '|') := by
  simp [secondField, OKpipe, List.dropWhile]

theorem matchString_OK_OKpipe (rest : Str) : MatchString OK (OKpipe ++ rest) = true := by
  simp [OKpipe, OK, MatchString, List.isPrefixOf]

theorem matchString_ERROR_OKpipe (rest : Str) :
    MatchString ERROR (OKpipe ++ rest) = MatchString ERROR rest := by
  simp [OKpipe, ERROR, MatchString, List.isPrefixOf]

theorem takeWhile_no_pipe (s : Str) (hs : '|' ∉ s) :
    s.takeWhile (fun c => c != '|') = s := by
  rw [List.takeWhile_eq_self_iff]
  intro c hc
  have : c ≠ '|' := fun h => hs (h ▸ hc)
  simpa using this

/-! ## Lemmas on the handlers and the loop -/

theorem iteration_OKpipe (rest : Str) :
    iteration (.ok (OKpipe ++ rest)) = .done (secondField (OKpipe ++ rest)) := by
  obtain ⟨fs, hfs⟩ := split_OKpipe rest
  simp [iteration, matchString_OK_OKpipe, hfs, secondField_OKpipe]

theorem submissionResult_OKpipe (rest : Str) (hrest : MatchString ERROR rest = false) :
    submissionResult (.ok (OKpipe ++ rest))
      = .returned (some (secondField (OKpipe ++ rest)), none) := by
  obtain ⟨fs, hfs⟩ := split_OKpipe rest
  simp [submissionResult, matchString_OK_OKpipe, matchString_ERROR_OKpipe, hrest, hfs,
    secondField_OKpipe]

theorem submissionResult_ERROR (body : Str) (hbody : MatchString ERROR body = true) :
    submissionResult (.ok body) = .returned (none, some (captchaServiceError body)) := by
  simp [submissionResult, hbody]

theorem submissionResult_unknown (body : Str) (herr : MatchString ERROR body = false)
    (hok : MatchString OK body = false) :
    submissionResult (.ok body) = .returned (none, some (unknownResponse body)) := by
  simp [submissionResult, herr, hok]

theorem iteration_quiet (body : Str) (hok : MatchString OK body = false)
    (herr : MatchString ERROR body = false) : iteration (.ok body) = .next := by
  simp [iteration, hok, herr]

theorem iteration_pending (body : Str) (hok : MatchString OK body = false)
    (hnr : MatchString CAPCHA_NOT_READY body = true) : iteration (.ok body) = .next := by
  simp [iteration, hok, hnr]

theorem pollLoop_skip (net : Http) (r : PollRequest) (n : Nat) :
    ∀ i fuel : Nat, (∀ j, j < n → iteration (net.Get (i + j) r) = .next) →
      pollLoop net r (n + fuel) i = pollLoop net r fuel (i + n) := by
  induction n with
  | zero => intro i fuel _; simp
  | succ n ih =>
    intro i fuel hnext
    have h0 : iteration (net.Get i r) = .next := by simpa using hnext 0 (Nat.succ_pos n)
    have hrest : ∀ j, j < n → iteration (net.Get (i + 1 + j) r) = .next := by
      intro j hj
      have := hnext (j + 1) (Nat.succ_lt_succ hj)
      rwa [show i + (j + 1) = i + 1 + j by omega] at this
    rw [show n + 1 + fuel = (n + fuel) + 1 by omega, pollLoop, h0]
    simp only
    rw [ih (i + 1) fuel hrest, show i + 1 + n = i + (n + 1) by omega]

theorem pollLoop_one_polls (net : Http) (r : PollRequest) (i : Nat) :
    (pollLoop net r 1 i).2 = i + 1 := by
  rw [pollLoop]
  split <;> simp [pollLoop]

theorem solveWith_solver (net : Http) (fuel : Nat) (solver : CaptchaSolver)
    (e : Exec (Option Str × Option GoError)) : (solveWith net fuel solver e).solver = solver := by
  unfold solveWith
  split
  · rfl
  · rfl
  · rfl
  · rfl
  · simp only
    split <;> rfl

theorem solveWith_error (net : Http) (fuel : Nat) (solver : CaptchaSolver) (err : GoError) :
    solveWith net fuel solver (.returned (none, some err))
      = ⟨.returned (none, none, some err), 0, solver⟩ := rfl

theorem solveWith_poll_error (net : Http) (fuel : Nat) (solver : CaptchaSolver) (id : Str)
    (a : Option Str) (err : GoError)
    (hw : (WaitForReady net fuel solver id).exec = .returned (a, some err)) :
    (solveWith net fuel solver (.returned (some id, none))).exec
      = .returned (none, some id, some err) := by
  simp only [solveWith, hw]

theorem solveWith_success (net : Http) (solver : CaptchaSolver) (fuel k : Nat) (id ans : Str)
    (hid : '|' ∉ id) (hans : '|' ∉ ans) (hidE : MatchString ERROR id = false)
    (hpend : ∀ i, i < k → net.Get i (pollRequest solver id) = .ok CAPCHA_NOT_READY)
    (hdone : net.Get k (pollRequest solver id) = .ok (OKpipe ++ ans))
    (hfuel : k + 1 ≤ fuel) :
    solveWith net fuel solver (submissionResult (.ok (OKpipe ++ id)))
      = ⟨.returned (some ans, some id, none), k + 1, solver⟩ := by
  obtain ⟨m, rfl⟩ : ∃ m, fuel = k + (m + 1) := ⟨fuel - (k + 1), by omega⟩
  have hskip := pollLoop_skip net (pollRequest solver id) k 0 (m + 1) (by
    intro j hj
    rw [Nat.zero_add, hpend j hj]
    exact iteration_pending _ (by decide) (by decide))
  have hlast : pollLoop net (pollRequest solver id) (m + 1) (0 + k)
      = (.returned (some ans, none), k + 1) := by
    rw [Nat.zero_add, pollLoop, hdone, iteration_OKpipe, secondField_OKpipe,
      takeWhile_no_pipe ans hans]
  rw [submissionResult_OKpipe id hidE, secondField_OKpipe, takeWhile_no_pipe id hid]
  simp only [solveWith, WaitForReady, hskip, hlast]

/-! ## Polling: classification of one response -/

/-- C1: when the body of a poll response begins with `OK|`, that iteration of
`WaitForReady` leaves the loop and `WaitForReady` returns, with a nil error,
the text between the first and the second pipe of the body (all the text after
the first pipe when there is no second one), whatever the rest of the body
contains. -/
theorem poll_success_payload (net : Http) (r : PollRequest) (fuel i : Nat) (rest : Str)
    (hget : net.Get i r = .ok (OKpipe ++ rest)) :
    iteration (net.Get i r) = .done (secondField (OKpipe ++ rest)) ∧
    secondField (OKpipe ++ rest) = rest.takeWhile (fun c => c != '|') ∧
    pollLoop net r (fuel + 1) i
      = (.returned (some (secondField (OKpipe ++ rest)), none), i + 1) := by
  refine ⟨?_, secondField_OKpipe rest, ?_⟩
  · rw [hget, iteration_OKpipe]
  · rw [pollLoop, hget, iteration_OKpipe]

/-- Witness of C1: the body `OK|ab|ERROR|CAPCHA_NOT_READY` gives the answer `ab`. -/
theorem poll_success_payload_witness :
    pollLoop (scripted (.ok []) (fun _ => .ok "OK|ab|ERROR|CAPCHA_NOT_READY".toList))
        (pollRequest (New []) []) 1 0
      = (.returned (some "ab".toList, none), 1) :=
  (poll_success_payload
    (scripted (.ok []) (fun _ => .ok "OK|ab|ERROR|CAPCHA_NOT_READY".toList))
    (pollRequest (New []) []) 0 0 "ab|ERROR|CAPCHA_NOT_READY".toList rfl).2.2

/-- Counterexample to C3 as stated: `ERROR: CAPCHA_NOT_READY` and
`ERROR_TOKEN_EXPIRED|7` both contain `ERROR` and not `OK|`, yet the first makes
the loop poll again and the second makes it return the answer `7`. -/
theorem poll_error_counterexample :
    (MatchString ERROR "ERROR: CAPCHA_NOT_READY".toList = true ∧
      MatchString OKpipe "ERROR: CAPCHA_NOT_READY".toList = false ∧
      iteration (.ok "ERROR: CAPCHA_NOT_READY".toList) = .next) ∧
    (MatchString ERROR "ERROR_TOKEN_EXPIRED|7".toList = true ∧
      MatchString OKpipe "ERROR_TOKEN_EXPIRED|7".toList = false ∧
      iteration (.ok "ERROR_TOKEN_EXPIRED|7".toList) = .done ['7']) := by
  decide

/-- C3 (amended): when the body of a poll response contains `ERROR` and
contains neither `OK` nor `CAPCHA_NOT_READY`, that iteration of `WaitForReady`
leaves the loop and `WaitForReady` returns a nil answer and the error
`Error response: ` followed by the whole body. -/
theorem poll_service_error (net : Http) (r : PollRequest) (fuel i : Nat) (body : Str)
    (hget : net.Get i r = .ok body)
    (herr : MatchString ERROR body = true)
    (hok : MatchString OK body = false)
    (hnr : MatchString CAPCHA_NOT_READY body = false) :
    iteration (net.Get i r) = .fail (errorResponse body) ∧
    pollLoop net r (fuel + 1) i = (.returned (none, some (errorResponse body)), i + 1) ∧
    (errorResponse body).msg = "Error response: ".toList ++ body := by
  have hit : iteration (net.Get i r) = .fail (errorResponse body) := by
    rw [hget]; simp [iteration, herr, hok, hnr]
  refine ⟨hit, ?_, rfl⟩
  rw [pollLoop, hit]

/-- Witness of C3 (amended): the body `ERROR_CAPTCHA_UNSOLVABLE`. -/
theorem poll_service_error_witness :
    pollLoop (scripted (.ok []) (fun _ => .ok "ERROR_CAPTCHA_UNSOLVABLE".toList))
        (pollRequest (New []) []) 1 0
      = (.returned (none, some (errorResponse "ERROR_CAPTCHA_UNSOLVABLE".toList)), 1) :=
  (poll_service_error
    (scripted (.ok []) (fun _ => .ok "ERROR_CAPTCHA_UNSOLVABLE".toList))
    (pollRequest (New []) []) 0 0 "ERROR_CAPTCHA_UNSOLVABLE".toList rfl
    (by decide) (by decide) (by decide)).2.1

/-- Counterexample to C7 as stated: `OKAY|CAPCHA_NOT_READY` contains
`CAPCHA_NOT_READY` and not `OK|`, yet the iteration leaves the loop with the
answer `CAPCHA_NOT_READY`. -/
theorem poll_pending_counterexample :
    MatchString CAPCHA_NOT_READY "OKAY|CAPCHA_NOT_READY".toList = true ∧
    MatchString OKpipe "OKAY|CAPCHA_NOT_READY".toList = false ∧
    iteration (.ok "OKAY|CAPCHA_NOT_READY".toList) = .done CAPCHA_NOT_READY := by
  decide

/-- C7 (amended): when the body of a poll response contains `CAPCHA_NOT_READY`
and does not contain `OK`, that iteration of `WaitForReady` neither returns nor
leaves the loop: the loop goes on with the next poll. -/
theorem poll_pending (net : Http) (r : PollRequest) (fuel i : Nat) (body : Str)
    (hget : net.Get i r = .ok body)
    (hnr : MatchString CAPCHA_NOT_READY body = true)
    (hok : MatchString OK body = false) :
    iteration (net.Get i r) = .next ∧
    pollLoop net r (fuel + 1) i = pollLoop net r fuel (i + 1) := by
  have hit : iteration (net.Get i r) = .next := by
    rw [hget]; exact iteration_pending body hok hnr
  refine ⟨hit, ?_⟩
  rw [pollLoop, hit]

/-- Witness of C7 (amended): the body `CAPCHA_NOT_READY`. -/
theorem poll_pending_witness :
    iteration ((scripted (.ok []) (fun _ => .ok CAPCHA_NOT_READY)).Get 0
      (pollRequest (New []) [])) = .next :=
  (poll_pending (scripted (.ok []) (fun _ => .ok CAPCHA_NOT_READY))
    (pollRequest (New []) []) 0 0 CAPCHA_NOT_READY rfl (by decide) (by decide)).1

/-- C8: when the first `n` polls are transported and none of their bodies
contains `OK` or `ERROR`, `WaitForReady` is still in its loop after `n`
iterations, having sent exactly `n` polls; it goes on from there as a loop that
starts at poll `n`, and one more iteration sends poll `n + 1`. -/
theorem poll_never_terminal (net : Http) (solver : CaptchaSolver) (captchaID : Str) (n : Nat)
    (hquiet : ∀ i, i < n → ∃ body, net.Get i (pollRequest solver captchaID) = .ok body ∧
      MatchString OK body = false ∧ MatchString ERROR body = false) :
    WaitForReady net n solver captchaID = ⟨.running, n, solver⟩ ∧
    (∀ fuel, pollLoop net (pollRequest solver captchaID) (n + fuel) 0
      = pollLoop net (pollRequest solver captchaID) fuel n) ∧
    (WaitForReady net (n + 1) solver captchaID).polls = n + 1 := by
  have hskip : ∀ fuel, pollLoop net (pollRequest solver captchaID) (n + fuel) 0
      = pollLoop net (pollRequest solver captchaID) fuel n := by
    intro fuel
    have := pollLoop_skip net (pollRequest solver captchaID) n 0 fuel (by
      intro j hj
      obtain ⟨body, hb, hok, herr⟩ := hquiet j hj
      rw [Nat.zero_add, hb]
      exact iteration_quiet body hok herr)
    rwa [Nat.zero_add] at this
  refine ⟨?_, hskip, ?_⟩
  · have h0 := hskip 0
    rw [Nat.add_zero] at h0
    simp only [WaitForReady, h0, pollLoop]
  · simp only [WaitForReady, hskip 1]
    exact pollLoop_one_polls net _ n

/-- Witness of C8: a server that always answers `CAPCHA_NOT_READY`, 5 polls. -/
theorem poll_never_terminal_witness :
    WaitForReady (scripted (.ok []) (fun _ => .ok CAPCHA_NOT_READY)) 5 (New []) ['7']
      = ⟨.running, 5, New []⟩ :=
  (poll_never_terminal (scripted (.ok []) (fun _ => .ok CAPCHA_NOT_READY)) (New []) ['7'] 5
    (fun _ _ => ⟨CAPCHA_NOT_READY, rfl, by decide, by decide⟩)).1

/-! ## Submission: classification of the response -/

/-- Counterexample to C2 as stated: on the submission body `OK|ERROR1`, which
begins with `OK|`, each of the three handlers returns a nil identifier and the
error `Captcha service error: OK|ERROR1`. -/
theorem submission_precedence_counterexample :
    getCaptchaID (scripted (.ok "OK|ERROR1".toList) (fun _ => .ok [])) (New []) []
      = .returned (none, some (captchaServiceError "OK|ERROR1".toList)) ∧
    getReCaptchaID (scripted (.ok "OK|ERROR1".toList) (fun _ => .ok [])) (New []) [] []
      = .returned (none, some (captchaServiceError "OK|ERROR1".toList)) ∧
    getReCaptchaV3ID (scripted (.ok "OK|ERROR1".toList) (fun _ => .ok [])) (New []) [] [] []
      = .returned (none, some (captchaServiceError "OK|ERROR1".toList)) := by
  decide

/-- C2 (amended): the submission handlers check Error before Success.  For a
submission body that begins with `OK|`, each of `getCaptchaID`,
`getReCaptchaID` and `getReCaptchaV3ID` returns, with a nil error, the text
between the first and the second pipe when the body does not contain `ERROR`,
and returns a nil identifier with the error `Captcha service error: <body>`
when it does. -/
theorem submission_precedence (net : Http) (solver : CaptchaSolver) (rest : Str) :
    (∀ file, net.sendRequest solver file = .ok (OKpipe ++ rest) →
      getCaptchaID net solver file
        = if MatchString ERROR (OKpipe ++ rest) then
            .returned (none, some (captchaServiceError (OKpipe ++ rest)))
          else .returned (some (secondField (OKpipe ++ rest)), none)) ∧
    (∀ key pageURL, net.sendRecaptchaRequest solver key pageURL = .ok (OKpipe ++ rest) →
      getReCaptchaID net solver key pageURL
        = if MatchString ERROR (OKpipe ++ rest) then
            .returned (none, some (captchaServiceError (OKpipe ++ rest)))
          else .returned (some (secondField (OKpipe ++ rest)), none)) ∧
    (∀ key pageURL action,
      net.sendRecaptchaV3Request solver key pageURL action = .ok (OKpipe ++ rest) →
      getReCaptchaV3ID net solver key pageURL action
        = if MatchString ERROR (OKpipe ++ rest) then
            .returned (none, some (captchaServiceError (OKpipe ++ rest)))
          else .returned (some (secondField (OKpipe ++ rest)), none)) := by
  have key : submissionResult (.ok (OKpipe ++ rest))
      = if MatchString ERROR (OKpipe ++ rest) then
          .returned (none, some (captchaServiceError (OKpipe ++ rest)))
        else .returned (some (secondField (OKpipe ++ rest)), none) := by
    cases hE : MatchString ERROR (OKpipe ++ rest)
    · rw [matchString_ERROR_OKpipe] at hE
      simp [submissionResult_OKpipe rest hE]
    · simp [submissionResult_ERROR _ hE]
  refine ⟨?_, ?_, ?_⟩
  · intro file hsend
    rw [getCaptchaID, hsend, key]
  · intro k u hsend
    rw [getReCaptchaID, hsend, key]
  · intro k u a hsend
    rw [getReCaptchaV3ID, hsend, key]

/-- Witness of C2 (amended): the body `OK|12345678|x` gives the identifier
`12345678`. -/
theorem submission_precedence_witness :
    getCaptchaID (scripted (.ok "OK|12345678|x".toList) (fun _ => .ok [])) (New []) []
      = .returned (some "12345678".toList, none) :=
  (submission_precedence (scripted (.ok "OK|12345678|x".toList) (fun _ => .ok [])) (New [])
    "12345678|x".toList).1 [] rfl

/-- C10 (the code breaks it): `results[1]` is out of range whenever the body
contains `OK` and no pipe.  The poll response `ERROR_BAD_TOKEN_OR_PAGEURL`
(`OK` occurs inside `TOKEN`) makes `WaitForReady` panic on its first iteration,
and the submission response `OK` makes each submission handler panic; in both
cases the split has a single field. -/
theorem index_out_of_range :
    (Split "ERROR_BAD_TOKEN_OR_PAGEURL".toList '|').length = 1 ∧
    WaitForReady (scripted (.ok []) (fun _ => .ok "ERROR_BAD_TOKEN_OR_PAGEURL".toList)) 1
        (New []) ['7']
      = ⟨.panicked, 1, New []⟩ ∧
    (Split OK '|').length = 1 ∧
    getCaptchaID (scripted (.ok OK) (fun _ => .ok [])) (New []) [] = .panicked ∧
    getReCaptchaID (scripted (.ok OK) (fun _ => .ok [])) (New []) [] [] = .panicked ∧
    getReCaptchaV3ID (scripted (.ok OK) (fun _ => .ok [])) (New []) [] [] [] = .panicked := by
  decide

/-! ## The solve operations -/

/-- Counterexample to C4 as stated: the identifier `7ERROR` contains no pipe,
the submission answers `OK|7ERROR` and the first poll answers `OK|abc`, yet
`SolveRecaptcha` returns a nil answer, a nil identifier and an error, and sends
no poll. -/
theorem solve_success_counterexample :
    SolveRecaptcha (scripted (.ok "OK|7ERROR".toList) (fun _ => .ok "OK|abc".toList)) 1
        (New []) [] []
      = ⟨.returned (none, none, some (captchaServiceError "OK|7ERROR".toList)), 0, New []⟩ := by
  decide

/-- C4 (amended): let `id` and `ans` contain no pipe and `id` not contain
`ERROR`.  When the submission answers `OK|id`, the first `k` polls answer
exactly `CAPCHA_NOT_READY` and poll `k + 1` answers `OK|ans`, each solve
operation (`Solve` with an image that loads, `SolveRecaptcha`,
`SolveRecaptchaV3`), run for at least `k + 1` iterations, returns the answer
`ans`, the identifier `id` and a nil error, having sent exactly `k + 1` polls. -/
theorem solve_success (net : Http) (solver : CaptchaSolver) (fuel k : Nat) (id ans : Str)
    (hid : '|' ∉ id) (hans : '|' ∉ ans) (hidE : MatchString ERROR id = false)
    (hpend : ∀ i, i < k → net.Get i (pollRequest solver id) = .ok CAPCHA_NOT_READY)
    (hdone : net.Get k (pollRequest solver id) = .ok (OKpipe ++ ans))
    (hfuel : k + 1 ≤ fuel) :
    (∀ path file, loadCaptchaImage net { solver with ImagePath := path } = .ok file →
      net.sendRequest { solver with ImagePath := path } file = .ok (OKpipe ++ id) →
      Solve net fuel solver path
        = ⟨.returned (some ans, some id, none), k + 1, { solver with ImagePath := path }⟩) ∧
    (∀ key pageURL, net.sendRecaptchaRequest solver key pageURL = .ok (OKpipe ++ id) →
      SolveRecaptcha net fuel solver key pageURL
        = ⟨.returned (some ans, some id, none), k + 1, solver⟩) ∧
    (∀ key pageURL action,
      net.sendRecaptchaV3Request solver key pageURL action = .ok (OKpipe ++ id) →
      SolveRecaptchaV3 net fuel solver key pageURL action
        = ⟨.returned (some ans, some id, none), k + 1, solver⟩) := by
  refine ⟨?_, ?_, ?_⟩
  · intro path file hload hsend
    simp only [Solve, hload, getCaptchaID, hsend]
    exact solveWith_success net { solver with ImagePath := path } fuel k id ans hid hans hidE
      hpend hdone hfuel
  · intro key pageURL hsend
    rw [SolveRecaptcha, getReCaptchaID, hsend]
    exact solveWith_success net solver fuel k id ans hid hans hidE hpend hdone hfuel
  · intro key pageURL action hsend
    rw [SolveRecaptchaV3, getReCaptchaV3ID, hsend]
    exact solveWith_success net solver fuel k id ans hid hans hidE hpend hdone hfuel

/-- Witness of C4 (amended): the scenario of the specification, submission
`OK|12345678`, two polls `CAPCHA_NOT_READY`, third poll `OK|RightAnswer123`. -/
theorem solve_success_witness :
    Solve (scripted (.ok "OK|12345678".toList)
        (fun i => if i < 2 then .ok CAPCHA_NOT_READY else .ok "OK|RightAnswer123".toList)) 3
        (New []) "captcha.png".toList
      = ⟨.returned (some "RightAnswer123".toList, some "12345678".toList, none), 3,
          { New [] with ImagePath := "captcha.png".toList }⟩ :=
  (solve_success (scripted (.ok "OK|12345678".toList)
      (fun i => if i < 2 then .ok CAPCHA_NOT_READY else .ok "OK|RightAnswer123".toList))
    (New []) 3 2 "12345678".toList "RightAnswer123".toList (by decide) (by decide) (by decide)
    (fun i hi => by simp [scripted, hi]) (by simp [scripted, OKpipe]) (Nat.le_refl 3)).1
    "captcha.png".toList [] rfl rfl

/-- Counterexample to C5 as stated: the submission body `BROKEN|x` is not a
Success (it does not contain `OK|`) and contains none of the markers `OK|`,
`CAPCHA_NOT_READY`, `ERROR`; yet each submission handler returns the identifier
`x` with a nil error, and each solve operation goes on to poll and returns the
answer of the poll, the identifier `x` and a nil error. -/
theorem failed_submission_counterexample :
    (MatchString OKpipe "BROKEN|x".toList = false ∧
      MatchString CAPCHA_NOT_READY "BROKEN|x".toList = false ∧
      MatchString ERROR "BROKEN|x".toList = false) ∧
    getCaptchaID (scripted (.ok "BROKEN|x".toList) (fun _ => .ok "OK|abc".toList)) (New []) []
      = .returned (some ['x'], none) ∧
    Solve (scripted (.ok "BROKEN|x".toList) (fun _ => .ok "OK|abc".toList)) 1 (New [])
        "captcha.png".toList
      = ⟨.returned (some "abc".toList, some ['x'], none), 1,
          { New [] with ImagePath := "captcha.png".toList }⟩ ∧
    SolveRecaptcha (scripted (.ok "BROKEN|x".toList) (fun _ => .ok "OK|abc".toList)) 1
        (New []) [] []
      = ⟨.returned (some "abc".toList, some ['x'], none), 1, New []⟩ ∧
    SolveRecaptchaV3 (scripted (.ok "BROKEN|x".toList) (fun _ => .ok "OK|abc".toList)) 1
        (New []) [] [] []
      = ⟨.returned (some "abc".toList, some ['x'], none), 1, New []⟩ := by
  decide

/-- C5 (amended): when the body of the submission response contains `ERROR`,
or does not contain `OK` (such as a body with none of the letters of a marker),
each solve operation returns a nil answer, a nil identifier and an error whose
message contains the body (`Captcha service error: <body>` or
`Unknown response: <body>`), and sends no poll. -/
theorem failed_submission (net : Http) (solver : CaptchaSolver) (fuel : Nat) (body : Str)
    (hbody : MatchString ERROR body = true ∨ MatchString OK body = false) :
    ∃ err : GoError, (err = captchaServiceError body ∨ err = unknownResponse body) ∧
      body <:+: err.msg ∧
      (∀ path file, loadCaptchaImage net { solver with ImagePath := path } = .ok file →
        net.sendRequest { solver with ImagePath := path } file = .ok body →
        Solve net fuel solver path
          = ⟨.returned (none, none, some err), 0, { solver with ImagePath := path }⟩) ∧
      (∀ key pageURL, net.sendRecaptchaRequest solver key pageURL = .ok body →
        SolveRecaptcha net fuel solver key pageURL
          = ⟨.returned (none, none, some err), 0, solver⟩) ∧
      (∀ key pageURL action, net.sendRecaptchaV3Request solver key pageURL action = .ok body →
        SolveRecaptchaV3 net fuel solver key pageURL action
          = ⟨.returned (none, none, some err), 0, solver⟩) := by
  have hsub : ∃ err : GoError, (err = captchaServiceError body ∨ err = unknownResponse body) ∧
      body <:+: err.msg ∧ submissionResult (.ok body) = .returned (none, some err) := by
    cases hE : MatchString ERROR body
    · have hok : MatchString OK body = false := by
        rcases hbody with h | h
        · rw [hE] at h; cases h
        · exact h
      exact ⟨unknownResponse body, Or.inr rfl, List.infix_append _ body _,
        submissionResult_unknown body hE hok⟩
    · exact ⟨captchaServiceError body, Or.inl rfl, List.infix_append _ body _,
        submissionResult_ERROR body hE⟩
  obtain ⟨err, hshape, hin, hres⟩ := hsub
  refine ⟨err, hshape, hin, ?_, ?_, ?_⟩
  · intro path file hload hsend
    simp only [Solve, hload, getCaptchaID, hsend, hres, solveWith_error]
  · intro key pageURL hsend
    rw [SolveRecaptcha, getReCaptchaID, hsend, hres, solveWith_error]
  · intro key pageURL action hsend
    rw [SolveRecaptchaV3, getReCaptchaV3ID, hsend, hres, solveWith_error]

/-- Witness of C5 (amended): the submission body `ERROR_WRONG_USER_KEY`. -/
theorem failed_submission_witness :
    ∃ err : GoError,
      (err = captchaServiceError "ERROR_WRONG_USER_KEY".toList ∨
        err = unknownResponse "ERROR_WRONG_USER_KEY".toList) ∧
      "ERROR_WRONG_USER_KEY".toList <:+: err.msg ∧
      SolveRecaptcha (scripted (.ok "ERROR_WRONG_USER_KEY".toList) (fun _ => .ok [])) 9
          (New []) [] []
        = ⟨.returned (none, none, some err), 0, New []⟩ :=
  let ⟨err, hshape, hin, _, hre, _⟩ :=
    failed_submission (scripted (.ok "ERROR_WRONG_USER_KEY".toList) (fun _ => .ok [])) (New [])
      9 "ERROR_WRONG_USER_KEY".toList (Or.inl (by decide))
  ⟨err, hshape, hin, hre [] [] rfl⟩

/-- C6: when the submission returns the identifier `id` and `WaitForReady` for
`id` returns an error (a failed transport or an `Error response`), each solve
operation returns a nil answer, the identifier `id` and that error. -/
theorem identifier_survives_failed_poll (net : Http) (solver : CaptchaSolver) (fuel : Nat)
    (id : Str) (a : Option Str) (err : GoError)
    (hwait : (WaitForReady net fuel solver id).exec = .returned (a, some err)) :
    (∀ path file, loadCaptchaImage net { solver with ImagePath := path } = .ok file →
      getCaptchaID net { solver with ImagePath := path } file = .returned (some id, none) →
      (Solve net fuel solver path).exec = .returned (none, some id, some err)) ∧
    (∀ key pageURL, getReCaptchaID net solver key pageURL = .returned (some id, none) →
      (SolveRecaptcha net fuel solver key pageURL).exec
        = .returned (none, some id, some err)) ∧
    (∀ key pageURL action,
      getReCaptchaV3ID net solver key pageURL action = .returned (some id, none) →
      (SolveRecaptchaV3 net fuel solver key pageURL action).exec
        = .returned (none, some id, some err)) := by
  refine ⟨?_, ?_, ?_⟩
  · intro path file hload hsub
    simp only [Solve, hload, hsub]
    exact solveWith_poll_error net fuel { solver with ImagePath := path } id a err hwait
  · intro key pageURL hsub
    rw [SolveRecaptcha, hsub]
    exact solveWith_poll_error net fuel solver id a err hwait
  · intro key pageURL action hsub
    rw [SolveRecaptchaV3, hsub]
    exact solveWith_poll_error net fuel solver id a err hwait

/-- Witness of C6: submission `OK|12345678`, then the poll fails in transport
with the error `timeout`; and the same with the poll response
`ERROR_CAPTCHA_UNSOLVABLE`. -/
theorem identifier_survives_failed_poll_witness :
    (Solve (scripted (.ok "OK|12345678".toList) (fun _ => .error ⟨"timeout".toList⟩)) 1
        (New []) "captcha.png".toList).exec
      = .returned (none, some "12345678".toList, some ⟨"timeout".toList⟩) ∧
    (SolveRecaptcha (scripted (.ok "OK|12345678".toList)
        (fun _ => .ok "ERROR_CAPTCHA_UNSOLVABLE".toList)) 1 (New []) [] []).exec
      = .returned (none, some "12345678".toList,
          some (errorResponse "ERROR_CAPTCHA_UNSOLVABLE".toList)) :=
  ⟨(identifier_survives_failed_poll
      (scripted (.ok "OK|12345678".toList) (fun _ => .error ⟨"timeout".toList⟩)) (New []) 1
      "12345678".toList none ⟨"timeout".toList⟩ rfl).1 "captcha.png".toList [] rfl rfl,
   (identifier_survives_failed_poll
      (scripted (.ok "OK|12345678".toList) (fun _ => .ok "ERROR_CAPTCHA_UNSOLVABLE".toList))
      (New []) 1 "12345678".toList none (errorResponse "ERROR_CAPTCHA_UNSOLVABLE".toList)
      rfl).2.1 [] [] rfl⟩

/-! ## The solver record -/

/-- Counterexample to C9 as stated: `Solve` stores its argument in the field
`ImagePath`; after `Solve("captcha.png")` on a fresh solver the record differs
from the one before the call. -/
theorem solver_read_only_counterexample :
    (New []).ImagePath = [] ∧
    (Solve (scripted (.ok []) (fun _ => .ok [])) 0 (New []) "captcha.png".toList).solver.ImagePath
      = "captcha.png".toList ∧
    (Solve (scripted (.ok []) (fun _ => .ok [])) 0 (New []) "captcha.png".toList).solver
      ≠ New [] := by
  decide

/-- C9 (amended): `SolveRecaptcha`, `SolveRecaptchaV3` and `WaitForReady` leave
every field of the `CaptchaSolver` record as it was before the call; `Solve`
sets the field `ImagePath` to its argument and leaves every other field as it
was. -/
theorem solver_frame (net : Http) (fuel : Nat) (solver : CaptchaSolver)
    (path key pageURL action captchaID : Str) :
    (Solve net fuel solver path).solver = { solver with ImagePath := path } ∧
    (SolveRecaptcha net fuel solver key pageURL).solver = solver ∧
    (SolveRecaptchaV3 net fuel solver key pageURL action).solver = solver ∧
    (WaitForReady net fuel solver captchaID).solver = solver := by
  refine ⟨?_, solveWith_solver _ _ _ _, solveWith_solver _ _ _ _, rfl⟩
  unfold Solve
  simp only
  split
  · rfl
  · exact solveWith_solver _ _ _ _

end Rucaptcha
